import Mathlib

/-! # Deals dashboard client (`static/js/app.js`)

A shallow embedding of the browser client: the deal store with its category
index, the filter and card rendering of `renderDeals`, `createDealCard` and
`showDealModal`, the snapshot load of `loadDeals`, and the refresh controller
made of `startRefresh`, `pollForUpdates` and the push-event handlers.

Modelling conventions.

* JavaScript numbers are exact rationals (`ℚ`); `NaN` and the infinities are
  outside the model.
* A JavaScript object parsed from JSON is the list of its own properties in
  `Object.keys` order. Reading a property falls back to the members that every
  such object inherits from `Object.prototype`.
* `null` is `none`. A thrown exception is `Except.error`.
* A template literal becomes a record with one field per interpolation; a
  fragment guarded by `cond ? fragment : ''` becomes an `Option`.
-/

namespace BlackFriday

/-! ## Data model -/

/-- Score breakdown of a deal (`deal.scores`). -/
structure Scores where
  total : ℚ
  discount : ℚ
  quality : ℚ
  credibility : ℚ
  price_tier : ℚ
  legitimacy : ℚ
deriving DecidableEq, Repr

/-- One deal record of `GET /api/deals`. -/
structure Deal where
  id : String
  title : String
  url : String
  image : Option String
  price : ℚ
  original_price : ℚ
  discount_pct : ℚ
  rating : ℚ
  review_count : ℚ
  retailer : String
  scores : Scores
deriving DecidableEq, Repr

/-- The global `filters` object (lines 8-11). -/
structure Filters where
  minDiscount : ℚ
  minRating : ℚ
deriving DecidableEq, Repr

/-- The category index `categories`: own properties in `Object.keys` order. -/
abbrev Categories := List (String × List String)

/-- The global store variables of lines 5-11. -/
structure Store where
  allDeals : List Deal
  categories : Categories
  currentCategory : Option String
  filters : Filters
deriving DecidableEq, Repr

/-- The store as the script initialises it (lines 5-11). -/
def Store.initial : Store :=
  { allDeals := [], categories := [], currentCategory := none,
    filters := { minDiscount := 0, minRating := 0 } }

/-! ## Property access on the category index -/

/-- Names that a plain object inherits from `Object.prototype`. -/
def objectPrototypeNames : List String :=
  ["constructor", "__proto__", "hasOwnProperty", "isPrototypeOf",
   "propertyIsEnumerable", "toLocaleString", "toString", "valueOf",
   "__defineGetter__", "__defineSetter__", "__lookupGetter__", "__lookupSetter__"]

/-- The property key that `categories[currentCategory]` reads: a string is used
as it is and `null` is converted to the string `"null"`. -/
def propertyKey : Option String → String
  | none => "null"
  | some c => c

/-- `Object.keys(categories)`. -/
def objectKeys (categories : Categories) : List String :=
  categories.map Prod.fst

/-- What a property read on the category index yields. -/
inductive PropertyValue where
  /-- An own property: the id array stored under the key. -/
  | idArray (ids : List String)
  /-- A member inherited from `Object.prototype`: truthy, and not an array. -/
  | inheritedMember
  /-- No such property. -/
  | undefined
deriving DecidableEq, Repr

/-- The read `categories[key]`: own properties first, then the prototype. -/
def getProperty (categories : Categories) (key : String) : PropertyValue :=
  match categories.lookup key with
  | some ids => PropertyValue.idArray ids
  | none =>
    if key ∈ objectPrototypeNames then PropertyValue.inheritedMember
    else PropertyValue.undefined

/-- Line 141: `categories[currentCategory] || []`. An array is truthy even when
empty, an inherited member is truthy, `undefined` gives the empty array. -/
def categoryDealIds (categories : Categories) (currentCategory : Option String) :
    PropertyValue :=
  match getProperty categories (propertyKey currentCategory) with
  | PropertyValue.undefined => PropertyValue.idArray []
  | v => v

/-! ## Filtering (`renderDeals`, lines 141-149) -/

/-- The filter callback of lines 145-149. -/
def passesFilters (filters : Filters) (d : Deal) : Bool :=
  if filters.minDiscount > 0 ∧ d.discount_pct < filters.minDiscount then false
  else if filters.minRating > 0 ∧ d.rating < filters.minRating then false
  else true

/-- Lines 141-149 of `renderDeals`: the value of the local `deals` after both
filters. `categoryDealIds.includes` is called once per element of `allDeals`,
so a value without `includes` throws only when `allDeals` is not empty. -/
def filteredDeals (s : Store) : Except String (List Deal) :=
  match categoryDealIds s.categories s.currentCategory with
  | PropertyValue.idArray ids =>
    Except.ok ((s.allDeals.filter (fun d => ids.contains d.id)).filter
      (passesFilters s.filters))
  | _ =>
    if s.allDeals.isEmpty then Except.ok []
    else Except.error "TypeError: categoryDealIds.includes is not a function"

/-! ## Cards and detail view -/

/-- The card markup of `createDealCard`, one field per interpolation. -/
structure DealCard where
  href : String
  dataId : String
  scoreClass : String
  scoreTotal : ℚ
  imgSrc : String
  alt : String
  title : String
  priceCurrent : ℚ
  priceOriginal : Option ℚ
  discountBadge : Option ℚ
  filledStars : Nat
  emptyStars : Nat
  reviewCount : ℚ
  retailer : String
deriving DecidableEq, Repr

/-- `Math.round` on a number: the nearest integer, halves rounded up. -/
def mathRound (x : ℚ) : Int :=
  Rat.floor (x + 1 / 2)

/-- `x || fallback` for an optional string: `null` and `''` are falsy. -/
def orElseString (x : Option String) (fallback : String) : String :=
  match x with
  | none => fallback
  | some v => if v = "" then fallback else v

/-- Line 174: the score tier. -/
def scoreClass (total : ℚ) : String :=
  if total ≥ 80 then "excellent" else if total ≥ 60 then "good" else "mediocre"

/-- The function `createDealCard` (lines 173-199). `String.prototype.repeat`
throws a `RangeError` on a negative count. -/
def createDealCard (deal : Deal) : Except String DealCard :=
  let filled := mathRound deal.rating
  if filled < 0 ∨ 5 - filled < 0 then
    Except.error "RangeError: Invalid count value"
  else
    Except.ok
      { href := deal.url
        dataId := deal.id
        scoreClass := scoreClass deal.scores.total
        scoreTotal := deal.scores.total
        imgSrc := orElseString deal.image "https://via.placeholder.com/300x200?text=No+Image"
        alt := deal.title
        title := deal.title
        priceCurrent := deal.price
        priceOriginal := if deal.original_price > deal.price then some deal.original_price else none
        discountBadge := if deal.discount_pct > 0 then some deal.discount_pct else none
        filledStars := filled.toNat
        emptyStars := (5 - filled).toNat
        reviewCount := deal.review_count
        retailer := deal.retailer }

/-- The markup that `showDealModal` writes into the modal body. -/
structure DealModal where
  imgSrc : String
  title : String
  price : ℚ
  priceOriginal : Option ℚ
  discountBadge : Option ℚ
  rating : ℚ
  reviewCount : ℚ
  retailer : String
  scores : Scores
  href : String
  shown : Bool
deriving DecidableEq, Repr

/-- The function `showDealModal` (lines 201-235). -/
def showDealModal (deal : Deal) : DealModal :=
  { imgSrc := orElseString deal.image "https://via.placeholder.com/600x400?text=No+Image"
    title := deal.title
    price := deal.price
    priceOriginal := if deal.original_price > deal.price then some deal.original_price else none
    discountBadge := if deal.discount_pct > 0 then some deal.discount_pct else none
    rating := deal.rating
    reviewCount := deal.review_count
    retailer := deal.retailer
    scores := deal.scores
    href := deal.url
    shown := true }

/-- Content of `dealsContainer` after `renderDeals`. -/
inductive Container where
  /-- The "No deals found" block of lines 154-159. -/
  | emptyState
  /-- One card per kept deal (line 163). -/
  | cards (cs : List DealCard)
deriving DecidableEq, Repr

/-- What `renderDeals` leaves behind: the local `deals` and the two DOM writes. -/
structure DealsView where
  deals : List Deal
  dealCount : String
  container : Container
deriving DecidableEq, Repr

/-- The function `renderDeals` (lines 139-171). -/
def renderDeals (s : Store) : Except String DealsView := do
  let deals ← filteredDeals s
  let dealCount := toString deals.length ++ " deals"
  if deals.length = 0 then
    return { deals := deals, dealCount := dealCount, container := Container.emptyState }
  let cs ← deals.mapM createDealCard
  return { deals := deals, dealCount := dealCount, container := Container.cards cs }

/-! ## Snapshot load (`loadDeals`, `renderCategoryButtons`) -/

/-- UTF-16 code units of a character sequence, the units that JavaScript
compares strings by. -/
def utf16Units : List Char → List Nat
  | [] => []
  | c :: cs =>
    if c.toNat < 65536 then c.toNat :: utf16Units cs
    else
      (55296 + (c.toNat - 65536) / 1024) :: (56320 + (c.toNat - 65536) % 1024) ::
        utf16Units cs

/-- Lexicographic `<=` on code unit sequences. -/
def codeUnitsLe : List Nat → List Nat → Bool
  | [], _ => true
  | _ :: _, [] => false
  | a :: as, b :: bs =>
    if a < b then true else if b < a then false else codeUnitsLe as bs

/-- The default comparison of `Array.prototype.sort` on strings. -/
def jsStringLe (a b : String) : Bool :=
  codeUnitsLe (utf16Units a.data) (utf16Units b.data)

/-- Insertion into a sorted list of strings, before the first element that is
not smaller. -/
def insertSorted (k : String) : List String → List String
  | [] => [k]
  | x :: xs => if jsStringLe k x then k :: x :: xs else x :: insertSorted k xs

/-- `keys.sort()` with the default comparison. -/
def sortStrings : List String → List String
  | [] => []
  | k :: ks => insertSorted k (sortStrings ks)

/-- One button of the category list (lines 122-127). -/
structure CategoryButton where
  category : String
  active : Bool
  count : Nat
deriving DecidableEq, Repr

/-- The function `renderCategoryButtons` (lines 117-129): one button per key,
in sorted key order. Every key is an own property, so `categories[category]`
is its id array. -/
def renderCategoryButtons (s : Store) : List CategoryButton :=
  (sortStrings (objectKeys s.categories)).map fun category =>
    { category := category
      active := decide (some category = s.currentCategory)
      count := ((s.categories.lookup category).getD []).length }

/-- Parsed body of `GET /api/deals`; an absent or `null` member is `none`. -/
structure DealsResponse where
  deals : Option (List Deal)
  categories : Option Categories
  last_updated : Option String
deriving DecidableEq, Repr

/-- Truthiness test `!currentCategory`: `null` and the empty string are falsy. -/
def isFalsy : Option String → Bool
  | none => true
  | some c => c = ""

/-- The store writes of `loadDeals` (lines 89-115). `fetched` is `none` when
the request or `response.json()` throws: the `catch` logs and nothing is
written. Otherwise `allDeals` and `categories` are replaced (lines 94-95) and
the default category is set (lines 107-109). The calls `renderCategoryButtons()`
and `renderDeals()` write to the page only. -/
def loadDeals (s : Store) (fetched : Option DealsResponse) : Store :=
  match fetched with
  | none => s
  | some data =>
    let categories := data.categories.getD []
    let currentCategory :=
      if isFalsy s.currentCategory then
        match objectKeys categories with
        | first :: _ => some first
        | [] => s.currentCategory
      else s.currentCategory
    { s with allDeals := data.deals.getD [], categories := categories,
             currentCategory := currentCategory }

/-- `selectCategory` (lines 131-137): the store write. -/
def selectCategory (s : Store) (category : String) : Store :=
  { s with currentCategory := some category }

/-! ## Refresh controller (`startRefresh`, `pollForUpdates`, push events)

The page is single threaded: every callback runs to its next `await` without
interruption. A call of `startRefresh` is three such runs (up to the status
request, up to the trigger request, and the rest). A timer callback of
`pollForUpdates` is two such runs: the firing, up to the request of line 305,
and the resumption, once that request is answered. Between the two the timer
may fire again and other callbacks may run. -/

/-- Page state that the controller reads and writes, with counters for the
requests it issues and for the callbacks it has scheduled. -/
structure Page where
  /-- Class `loading` on `refreshBtn`: the busy flag. -/
  loading : Bool
  refreshIcon : String
  refreshText : String
  /-- Class `hidden` on `progressBar`. -/
  progressHidden : Bool
  /-- Display resets scheduled with `setTimeout` and not yet run. -/
  pendingResets : Nat
  /-- Calls of `startRefresh` suspended at the status request (line 247). -/
  awaitingStatus : Nat
  /-- Calls of `startRefresh` suspended at the trigger request (line 264). -/
  awaitingTrigger : Nat
  /-- Requests `GET /api/check-local-status` issued so far. -/
  statusRequests : Nat
  /-- Requests `POST /api/trigger-local-scrape` issued so far. -/
  triggerRequests : Nat
  /-- Calls of `loadDeals` made by the controller so far. -/
  loadDealsCalls : Nat
deriving DecidableEq, Repr

/-- Closure of one call of `pollForUpdates`: its counter, whether its interval
timer `pollInterval` is still scheduled, and how many of its callbacks are
suspended at the request of line 305. -/
structure Poller where
  pollCount : Nat
  active : Bool
  inFlight : Nat
deriving DecidableEq, Repr

/-- The whole controller: the page and one closure per `pollForUpdates` call. -/
structure Controller where
  page : Page
  pollers : List Poller
deriving DecidableEq, Repr

/-- Line 299: `const maxPolls = 36; // 6 minutes max`. -/
def maxPolls : Nat := 36

/-- Outcome of the request of one poll attempt. -/
inductive PollOutcome where
  /-- The request and `response.json()` succeed; `timeDiff` is the age of the
  snapshot in seconds (line 310). -/
  | response (timeDiff : ℚ)
  /-- The request or `response.json()` throws. -/
  | failed
deriving DecidableEq, Repr

/-- Answer to `GET /api/check-local-status`. -/
inductive StatusResult where
  | online
  | notOnline
  | failed
deriving DecidableEq, Repr

/-- Answer to `POST /api/trigger-local-scrape`. -/
inductive TriggerResult where
  /-- Status 202 with a JSON body. -/
  | accepted
  /-- Another status with a JSON body. -/
  | rejected
  /-- The request or `triggerResponse.json()` throws. -/
  | failed
deriving DecidableEq, Repr

/-- The idle display that every scheduled reset restores (lines 74-75). -/
def displayReset (pg : Page) : Page :=
  { pg with refreshIcon := "🔄", refreshText := "Refresh Deals" }

/-- The `catch` block of `startRefresh` (lines 282-292). -/
def showError (pg : Page) : Page :=
  { pg with loading := false, refreshIcon := "❌", refreshText := "Error - Try Again",
            progressHidden := true, pendingResets := pg.pendingResets + 1 }

/-- The function `startRefresh` up to its first `await` (lines 237-247). -/
def startRefresh (pg : Page) : Page :=
  if pg.loading then pg
  else
    { pg with loading := true, refreshIcon := "⏳",
              refreshText := "Triggering local scraper...", progressHidden := false,
              statusRequests := pg.statusRequests + 1,
              awaitingStatus := pg.awaitingStatus + 1 }

/-- The function `pollForUpdates` (lines 296-301 and 347): a new closure with
`pollCount = 0` and a new interval timer. -/
def pollForUpdates (c : Controller) : Controller :=
  { c with pollers := c.pollers ++ [{ pollCount := 0, active := true, inFlight := 0 }] }

/-- The function `startRefresh` from the status answer to the trigger request
(lines 248-269). -/
def startRefreshAfterStatus (pg : Page) (r : StatusResult) : Page :=
  let pg1 := { pg with awaitingStatus := pg.awaitingStatus - 1 }
  match r with
  | StatusResult.failed => showError pg1
  | StatusResult.notOnline =>
    { pg1 with loading := false, refreshIcon := "❌", refreshText := "Local machine offline",
               progressHidden := true, pendingResets := pg1.pendingResets + 1 }
  | StatusResult.online =>
    { pg1 with triggerRequests := pg1.triggerRequests + 1,
               awaitingTrigger := pg1.awaitingTrigger + 1 }

/-- The function `startRefresh` from the trigger answer on (lines 271-293). -/
def startRefreshAfterTrigger (c : Controller) (r : TriggerResult) : Controller :=
  let pg1 := { c.page with awaitingTrigger := c.page.awaitingTrigger - 1 }
  match r with
  | TriggerResult.accepted =>
    pollForUpdates { c with page := { pg1 with refreshText := "Local scraping started..." } }
  | _ => { c with page := showError pg1 }

/-- Line 342: the progress text of a poll that goes on waiting. -/
def waitingText (pollCount : Nat) : String :=
  "Waiting for updates... (" ++ toString (pollCount * 10) ++ "s)"

/-- The timer callback of `pollForUpdates` up to its `await` (lines 301-305):
the counter is incremented and the request is issued. -/
def pollCallbackStart (p : Poller) : Poller :=
  { p with pollCount := p.pollCount + 1, inFlight := p.inFlight + 1 }

/-- The timer callback of `pollForUpdates` from the answer of its request on
(lines 305-346). Line 327 reads the counter of the closure as it is now, after
every firing that happened in the meantime. -/
def pollCallbackResume (p : Poller) (pg : Page) (o : PollOutcome) : Poller × Page :=
  let p1 := { p with inFlight := p.inFlight - 1 }
  match o with
  | PollOutcome.failed => (p1, pg)
  | PollOutcome.response timeDiff =>
    if timeDiff < 120 then
      ({ p1 with active := false },
       { pg with loading := false, refreshIcon := "✓", refreshText := "Refresh Complete",
                 progressHidden := true, pendingResets := pg.pendingResets + 1,
                 loadDealsCalls := pg.loadDealsCalls + 1 })
    else if p1.pollCount ≥ maxPolls then
      ({ p1 with active := false },
       { pg with loading := false, refreshIcon := "⏱", refreshText := "Still processing...",
                 progressHidden := true, pendingResets := pg.pendingResets + 1 })
    else
      (p1, { pg with refreshText := waitingText p1.pollCount })

/-- What can happen to one closure of `pollForUpdates`. -/
inductive PollEvent where
  /-- The interval timer fires. -/
  | fire
  /-- One of the suspended requests is answered. -/
  | answer (o : PollOutcome)
deriving DecidableEq, Repr

/-- One event of one closure. The timer fires only while it is scheduled; an
answer resumes a suspended callback, also after the timer was cleared. An
event that cannot happen leaves the state as it is. -/
def pollEvent (st : Poller × Page) : PollEvent → Poller × Page
  | PollEvent.fire => if st.1.active then (pollCallbackStart st.1, st.2) else st
  | PollEvent.answer o => if st.1.inFlight = 0 then st else pollCallbackResume st.1 st.2 o

/-- A sequence of events of one closure, in order. -/
def pollRun (st : Poller × Page) (events : List PollEvent) : Poller × Page :=
  events.foldl pollEvent st

/-- The schedule in which every request is answered before the timer fires
again: one firing and one answer per outcome. -/
def sequential : List PollOutcome → List PollEvent
  | [] => []
  | o :: os => PollEvent.fire :: PollEvent.answer o :: sequential os

/-- Handler of `scraping_progress` (lines 61-64). -/
def onScrapingProgress (pg : Page) (retailer dealsFound : String) : Page :=
  { pg with refreshText := retailer ++ ": " ++ dealsFound ++ " deals" }

/-- Handler of `scraping_complete` (lines 66-79). -/
def onScrapingComplete (pg : Page) : Page :=
  { pg with loading := false, refreshIcon := "✓", refreshText := "Refresh Complete",
            progressHidden := true, pendingResets := pg.pendingResets + 1,
            loadDealsCalls := pg.loadDealsCalls + 1 }

/-- Handler of `scraping_error` (lines 81-86). -/
def onScrapingError (pg : Page) : Page :=
  { pg with loading := false, refreshText := "Error - Try Again", progressHidden := true }

/-- What can happen to the controller. -/
inductive Event where
  /-- A click on `refreshBtn`. -/
  | click
  /-- The status request of a suspended `startRefresh` is answered. -/
  | statusResult (r : StatusResult)
  /-- The trigger request of a suspended `startRefresh` is answered. -/
  | triggerResult (r : TriggerResult)
  /-- An event of the closure that the `i`-th call of `pollForUpdates` made. -/
  | poll (i : Nat) (e : PollEvent)
  | scrapingProgress (retailer dealsFound : String)
  | scrapingComplete
  | scrapingError
  /-- A scheduled display reset runs. -/
  | resetTimer
deriving DecidableEq, Repr

/-- One event. An event that cannot happen in the state (an answer nobody waits
for, a firing of a cleared or unknown timer, a reset that was not scheduled)
leaves the state as it is. -/
def step (c : Controller) : Event → Controller
  | Event.click => { c with page := startRefresh c.page }
  | Event.statusResult r =>
    if c.page.awaitingStatus = 0 then c
    else { c with page := startRefreshAfterStatus c.page r }
  | Event.triggerResult r =>
    if c.page.awaitingTrigger = 0 then c
    else startRefreshAfterTrigger c r
  | Event.poll i e =>
    match c.pollers.get? i with
    | none => c
    | some p =>
      { page := (pollEvent (p, c.page) e).2,
        pollers := c.pollers.set i (pollEvent (p, c.page) e).1 }
  | Event.scrapingProgress retailer dealsFound =>
    { c with page := onScrapingProgress c.page retailer dealsFound }
  | Event.scrapingComplete => { c with page := onScrapingComplete c.page }
  | Event.scrapingError => { c with page := onScrapingError c.page }
  | Event.resetTimer =>
    if c.page.pendingResets = 0 then c
    else { c with page := displayReset { c.page with pendingResets := c.page.pendingResets - 1 } }

/-- A sequence of events, in order. -/
def run (c : Controller) (events : List Event) : Controller :=
  events.foldl step c

/-- Number of interval timers of `pollForUpdates` that are scheduled. -/
def activeTimers (c : Controller) : Nat :=
  c.pollers.countP (fun p => p.active)

/-- The idle page before any refresh. -/
def Page.idle : Page :=
  { loading := false, refreshIcon := "🔄", refreshText := "Refresh Deals",
    progressHidden := true, pendingResets := 0, awaitingStatus := 0, awaitingTrigger := 0,
    statusRequests := 0, triggerRequests := 0, loadDealsCalls := 0 }

/-- The controller on page load: idle page, `pollForUpdates` never called. -/
def Controller.initial : Controller :=
  { page := Page.idle, pollers := [] }

/-- The page right after `startRefresh` has called `pollForUpdates`. -/
def Page.polling : Page :=
  { Page.idle with loading := true, refreshIcon := "⏳",
                   refreshText := "Local scraping started...", progressHidden := false,
                   statusRequests := 1, triggerRequests := 1 }

/-- The closure that `pollForUpdates` creates. -/
def Poller.fresh : Poller :=
  { pollCount := 0, active := true, inFlight := 0 }

/-! ## Sample data -/

/-- A deal with the given id, prices, discount and rating; other fields fixed. -/
def sampleDeal (id : String) (price original discount rating : ℚ) : Deal :=
  { id := id, title := "Headphones", url := "https://shop.example/" ++ id, image := none,
    price := price, original_price := original, discount_pct := discount, rating := rating,
    review_count := 12, retailer := "Shop",
    scores := { total := 70, discount := 20, quality := 20, credibility := 10,
                price_tier := 10, legitimacy := 10 } }

/-- A store where no category is selected and a category is named `"null"`. -/
def nullNamedStore : Store :=
  { allDeals := [sampleDeal "a" 80 100 20 4],
    categories := [("null", ["a"])],
    currentCategory := none,
    filters := { minDiscount := 0, minRating := 0 } }

/-- A store whose selected category `"constructor"` is no longer in the index. -/
def staleSelectionStore : Store :=
  { allDeals := [sampleDeal "a" 80 100 20 4],
    categories := [("tv", ["a"])],
    currentCategory := some "constructor",
    filters := { minDiscount := 0, minRating := 0 } }

/-- A store with two categories, ids listed out of order and repeated. -/
def tvStore : Store :=
  { allDeals := [sampleDeal "a" 80 100 20 4, sampleDeal "b" 90 100 10 3,
                 sampleDeal "c" 50 100 50 5, sampleDeal "d" 100 100 0 (9 / 2)],
    categories := [("tv", ["c", "a", "c", "zz", "b"]), ("audio", ["d"])],
    currentCategory := some "tv",
    filters := { minDiscount := 15, minRating := 4 } }

/-- A store with the initial filters and a deal whose price was raised, so
that its discount is negative. -/
def raisedPriceStore : Store :=
  { allDeals := [sampleDeal "n" 110 100 (-10) 4],
    categories := [("tv", ["n"])],
    currentCategory := some "tv",
    filters := { minDiscount := 0, minRating := 0 } }

/-- A snapshot whose category index lists `tv` before `audio`. -/
def tvFirstResponse : DealsResponse :=
  { deals := some [sampleDeal "a" 80 100 20 4, sampleDeal "d" 100 100 0 4],
    categories := some [("tv", ["a"]), ("audio", ["d"])],
    last_updated := some "2024-11-29T08:00:00Z" }

/-! ## Facts about the filter -/

theorem passesFilters_iff (f : Filters) (d : Deal) :
    passesFilters f d = true ↔
      (f.minDiscount ≤ 0 ∨ f.minDiscount ≤ d.discount_pct) ∧
      (f.minRating ≤ 0 ∨ f.minRating ≤ d.rating) := by
  unfold passesFilters
  by_cases h1 : f.minDiscount > 0 ∧ d.discount_pct < f.minDiscount
  · simp only [h1, and_self, if_true]
    constructor
    · intro h; cases h
    · rintro ⟨h | h, _⟩
      · exact absurd h1.1 (not_lt.mpr h)
      · exact absurd h1.2 (not_lt.mpr h)
  · by_cases h2 : f.minRating > 0 ∧ d.rating < f.minRating
    · simp only [h1, h2, and_self, if_true, if_false]
      constructor
      · intro h; cases h
      · rintro ⟨_, h | h⟩
        · exact absurd h2.1 (not_lt.mpr h)
        · exact absurd h2.2 (not_lt.mpr h)
    · simp only [h1, h2, if_false, true_iff]
      rw [not_and_or, not_lt, not_lt] at h1 h2
      exact ⟨h1, h2⟩

theorem filteredDeals_of_idArray (s : Store) (ids : List String)
    (h : categoryDealIds s.categories s.currentCategory = PropertyValue.idArray ids) :
    filteredDeals s = Except.ok ((s.allDeals.filter (fun d => ids.contains d.id)).filter
      (passesFilters s.filters)) := by
  unfold filteredDeals
  rw [h]

theorem filteredDeals_of_inherited (s : Store)
    (h : categoryDealIds s.categories s.currentCategory = PropertyValue.inheritedMember) :
    filteredDeals s = if s.allDeals.isEmpty then Except.ok []
      else Except.error "TypeError: categoryDealIds.includes is not a function" := by
  unfold filteredDeals
  rw [h]

theorem categoryDealIds_ne_undefined (c : Categories) (k : Option String) :
    categoryDealIds c k ≠ PropertyValue.undefined := by
  unfold categoryDealIds
  cases getProperty c (propertyKey k) <;> simp

theorem getProperty_of_absent (c : Categories) (k : String)
    (hown : k ∉ objectKeys c) (hproto : k ∉ objectPrototypeNames) :
    getProperty c k = PropertyValue.undefined := by
  have hl : c.lookup k = none := by
    rw [List.lookup_eq_none_iff]
    intro p hp
    have hne : k ≠ p.1 := fun h => hown (by
      rw [h]; exact List.mem_map_of_mem Prod.fst hp)
    simpa using hne
  unfold getProperty
  rw [hl]
  simp [hproto]

theorem renderDeals_deals (s : Store) (v : DealsView) (h : renderDeals s = Except.ok v) :
    filteredDeals s = Except.ok v.deals := by
  unfold renderDeals at h
  cases hf : filteredDeals s with
  | error e => rw [hf] at h; cases h
  | ok deals =>
    rw [hf] at h
    simp only [bind, Except.bind, pure, Except.pure] at h
    split at h
    · cases h; rfl
    · cases hm : List.mapM createDealCard deals with
      | error e => rw [hm] at h; cases h
      | ok cs => rw [hm] at h; cases h; rfl

/-! ## Theorems on `renderDeals` -/

/-- C1, counterexample: with the initial thresholds (both 0) `renderDeals`
keeps a deal of the selected category whose `discount_pct` is -10, because
line 146 tests the discount only when `minDiscount > 0`; the kept deal does not
satisfy `discount_pct >= minDiscount`. -/
theorem renderDeals_keeps_negative_discount :
    filteredDeals raisedPriceStore = Except.ok [sampleDeal "n" 110 100 (-10) 4] ∧
    raisedPriceStore.filters.minDiscount = 0 ∧
    ¬ ((sampleDeal "n" 110 100 (-10) 4).discount_pct ≥ raisedPriceStore.filters.minDiscount) := by
  refine ⟨rfl, rfl, ?_⟩
  norm_num [sampleDeal, raisedPriceStore]

/-- C1, amended: for every store and all thresholds, every deal that
`renderDeals` keeps is a deal of `allDeals` whose id is listed in
`categories[currentCategory]`, has `minDiscount <= 0` or
`discount_pct >= minDiscount`, and has `minRating <= 0` or
`rating >= minRating`; so a kept deal whose `discount_pct` and `rating` are not
negative has `discount_pct >= minDiscount`, and `minRating == 0` or
`rating >= minRating`. -/
theorem renderDeals_kept_in_category_and_filters (s : Store) (kept : List Deal)
    (hk : filteredDeals s = Except.ok kept) :
    ∀ d ∈ kept,
      d ∈ s.allDeals ∧
      (∃ ids, categoryDealIds s.categories s.currentCategory = PropertyValue.idArray ids ∧
        d.id ∈ ids) ∧
      (s.filters.minDiscount ≤ 0 ∨ d.discount_pct ≥ s.filters.minDiscount) ∧
      (s.filters.minRating ≤ 0 ∨ d.rating ≥ s.filters.minRating) ∧
      (0 ≤ d.discount_pct → 0 ≤ d.rating →
        d.discount_pct ≥ s.filters.minDiscount ∧
        (s.filters.minRating = 0 ∨ d.rating ≥ s.filters.minRating)) := by
  intro d hd
  cases hc : categoryDealIds s.categories s.currentCategory with
  | idArray ids =>
    rw [filteredDeals_of_idArray s ids hc] at hk
    cases hk
    rw [List.mem_filter, List.mem_filter] at hd
    obtain ⟨⟨hmem, hid⟩, hpass⟩ := hd
    rw [passesFilters_iff] at hpass
    refine ⟨hmem, ⟨ids, rfl, by simpa using hid⟩, hpass.1, hpass.2, ?_⟩
    intro hnd hnr
    constructor
    · rcases hpass.1 with h | h
      · exact le_trans h hnd
      · exact h
    · rcases hpass.2 with h | h
      · exact Or.inr (le_trans h hnr)
      · exact Or.inr h
  | inheritedMember =>
    rw [filteredDeals_of_inherited s hc] at hk
    split at hk
    · cases hk; cases hd
    · cases hk
  | undefined => exact absurd hc (categoryDealIds_ne_undefined _ _)

/-- Witness for C1 on a store with four deals and two categories, thresholds
15 and 4: deals `a` and `c` are kept. -/
theorem renderDeals_kept_in_category_and_filters_witness :
    filteredDeals tvStore = Except.ok [sampleDeal "a" 80 100 20 4, sampleDeal "c" 50 100 50 5] ∧
    ∀ d ∈ [sampleDeal "a" 80 100 20 4, sampleDeal "c" 50 100 50 5],
      d ∈ tvStore.allDeals ∧
      (∃ ids, categoryDealIds tvStore.categories tvStore.currentCategory =
          PropertyValue.idArray ids ∧ d.id ∈ ids) ∧
      (tvStore.filters.minDiscount ≤ 0 ∨ d.discount_pct ≥ tvStore.filters.minDiscount) ∧
      (tvStore.filters.minRating ≤ 0 ∨ d.rating ≥ tvStore.filters.minRating) ∧
      (0 ≤ d.discount_pct → 0 ≤ d.rating →
        d.discount_pct ≥ tvStore.filters.minDiscount ∧
        (tvStore.filters.minRating = 0 ∨ d.rating ≥ tvStore.filters.minRating)) :=
  ⟨rfl, renderDeals_kept_in_category_and_filters tvStore _ rfl⟩

/-- C2, evaluation at the failing inputs: with the stale selection
`"constructor"`, which is not a key of the index, the read finds the member
inherited from `Object.prototype` and `renderDeals` throws; with no category
selected and a category named `"null"` in the index, `categories[null]` reads
that category, so one deal is kept. -/
theorem renderDeals_unknown_category_not_empty :
    (staleSelectionStore.currentCategory = some "constructor" ∧
      "constructor" ∉ objectKeys staleSelectionStore.categories ∧
      renderDeals staleSelectionStore =
        Except.error "TypeError: categoryDealIds.includes is not a function") ∧
    (nullNamedStore.currentCategory = none ∧
      filteredDeals nullNamedStore = Except.ok [sampleDeal "a" 80 100 20 4] ∧
      ¬ ∃ v, renderDeals nullNamedStore = Except.ok v ∧ v.deals = []) := by
  refine ⟨⟨rfl, by decide, rfl⟩, rfl, rfl, ?_⟩
  rintro ⟨v, hv, he⟩
  have h := renderDeals_deals nullNamedStore v hv
  rw [he] at h
  have h2 : filteredDeals nullNamedStore = Except.ok [sampleDeal "a" 80 100 20 4] := rfl
  rw [h2] at h
  cases h

/-- Apart from those names: when the property key of the selected category
(`null` reads as `"null"`) is neither a key of the category index nor a name
inherited from `Object.prototype`, `renderDeals` raises no error, keeps no
deal, writes the count label `0 deals` and shows the empty state. -/
theorem renderDeals_absent_key_empty (s : Store)
    (hown : propertyKey s.currentCategory ∉ objectKeys s.categories)
    (hproto : propertyKey s.currentCategory ∉ objectPrototypeNames) :
    renderDeals s = Except.ok
      { deals := [], dealCount := "0 deals", container := Container.emptyState } := by
  have hc : categoryDealIds s.categories s.currentCategory = PropertyValue.idArray [] := by
    unfold categoryDealIds
    rw [getProperty_of_absent _ _ hown hproto]
  have hf : filteredDeals s = Except.ok [] := by
    rw [filteredDeals_of_idArray s [] hc]
    simp
  unfold renderDeals
  rw [hf]
  rfl

/-- The selection `"garden"` on an index without that key, and no selection on
the initial empty index, both render the empty state. -/
theorem renderDeals_absent_key_empty_examples :
    renderDeals { tvStore with currentCategory := some "garden" } = Except.ok
      { deals := [], dealCount := "0 deals", container := Container.emptyState } ∧
    renderDeals Store.initial = Except.ok
      { deals := [], dealCount := "0 deals", container := Container.emptyState } :=
  ⟨renderDeals_absent_key_empty { tvStore with currentCategory := some "garden" }
      (by decide) (by decide),
   renderDeals_absent_key_empty Store.initial (by decide) (by decide)⟩

/-- C3: the list that `renderDeals` keeps is a sublist of `allDeals` (same
relative order), and it stays the same when the id list of the category is
replaced by any list with the same members, whatever its order or repetitions. -/
theorem renderDeals_kept_is_subsequence (s : Store) (kept : List Deal)
    (hk : filteredDeals s = Except.ok kept) :
    List.Sublist kept s.allDeals ∧
    ∀ (categories2 : Categories) (ids ids2 : List String),
      categoryDealIds s.categories s.currentCategory = PropertyValue.idArray ids →
      categoryDealIds categories2 s.currentCategory = PropertyValue.idArray ids2 →
      (∀ x, x ∈ ids ↔ x ∈ ids2) →
      filteredDeals { s with categories := categories2 } = Except.ok kept := by
  constructor
  · cases hc : categoryDealIds s.categories s.currentCategory with
    | idArray ids =>
      rw [filteredDeals_of_idArray s ids hc] at hk
      cases hk
      exact List.Sublist.trans (List.filter_sublist _) (List.filter_sublist _)
    | inheritedMember =>
      rw [filteredDeals_of_inherited s hc] at hk
      split at hk
      · cases hk; exact List.nil_sublist _
      · cases hk
    | undefined => exact absurd hc (categoryDealIds_ne_undefined _ _)
  · intro categories2 ids ids2 h1 h2 hm
    rw [filteredDeals_of_idArray s ids h1] at hk
    rw [filteredDeals_of_idArray { s with categories := categories2 } ids2 h2]
    cases hk
    congr 2
    apply List.filter_congr
    intro d _
    have := hm d.id
    by_cases hd : d.id ∈ ids
    · simp [hd, this.mp hd]
    · have hd2 : d.id ∉ ids2 := fun h => hd (this.mpr h)
      simp [hd, hd2]

/-- Witness for C3: deals `a` and `c` are kept in the order of `allDeals`
although the category lists `c` first and twice, and reordering the id list
leaves the result unchanged. -/
theorem renderDeals_kept_is_subsequence_witness :
    List.Sublist [sampleDeal "a" 80 100 20 4, sampleDeal "c" 50 100 50 5] tvStore.allDeals ∧
    filteredDeals { tvStore with categories := [("tv", ["b", "zz", "a", "c"])] } =
      Except.ok [sampleDeal "a" 80 100 20 4, sampleDeal "c" 50 100 50 5] :=
  have h := renderDeals_kept_is_subsequence tvStore
    [sampleDeal "a" 80 100 20 4, sampleDeal "c" 50 100 50 5] rfl
  ⟨h.1, h.2 [("tv", ["b", "zz", "a", "c"])] ["c", "a", "c", "zz", "b"] ["b", "zz", "a", "c"]
    rfl rfl (by intro x; simp only [List.mem_cons, List.mem_singleton, List.mem_nil_iff]; tauto)⟩

/-! ## Theorems on the card and the detail view -/

theorem mathRound_range (x : ℚ) (h0 : 0 ≤ x) (h5 : x ≤ 5) :
    0 ≤ mathRound x ∧ mathRound x ≤ 5 := by
  unfold mathRound
  constructor
  · rw [Rat.le_floor]
    have : (0 : ℚ) ≤ x + 1 / 2 := by linarith
    simpa using this
  · by_contra hc
    have h6 : (6 : ℤ) ≤ Rat.floor (x + 1 / 2) := by omega
    rw [Rat.le_floor] at h6
    have : (6 : ℚ) ≤ x + 1 / 2 := by simpa using h6
    linarith

/-- C10: whenever `createDealCard` produces a card, the card holds the
struck-through original price exactly when `original_price > price` and the
discount badge exactly when `discount_pct > 0`; the same two equivalences hold
for the detail view of `showDealModal`; and for a rating between 0 and 5 the
card is produced. -/
theorem card_and_modal_price_fragments (deal : Deal) :
    (∀ card, createDealCard deal = Except.ok card →
      (card.priceOriginal.isSome = true ↔ deal.original_price > deal.price) ∧
      (card.discountBadge.isSome = true ↔ deal.discount_pct > 0)) ∧
    ((showDealModal deal).priceOriginal.isSome = true ↔ deal.original_price > deal.price) ∧
    ((showDealModal deal).discountBadge.isSome = true ↔ deal.discount_pct > 0) ∧
    (0 ≤ deal.rating ∧ deal.rating ≤ 5 → ∃ card, createDealCard deal = Except.ok card) := by
  refine ⟨?_, ?_, ?_, ?_⟩
  · intro card hcard
    unfold createDealCard at hcard
    simp only at hcard
    split at hcard
    · cases hcard
    · cases hcard
      constructor
      · by_cases h : deal.original_price > deal.price <;> simp [h]
      · by_cases h : deal.discount_pct > 0 <;> simp [h]
  · unfold showDealModal
    by_cases h : deal.original_price > deal.price <;> simp [h]
  · unfold showDealModal
    by_cases h : deal.discount_pct > 0 <;> simp [h]
  · rintro ⟨h0, h5⟩
    obtain ⟨hr0, hr5⟩ := mathRound_range deal.rating h0 h5
    unfold createDealCard
    simp only
    rw [if_neg (by omega)]
    exact ⟨_, rfl⟩

/-- Witness for C10 on the two deals of scenario E: price 100 of 100 with
discount 0 renders neither fragment, price 80 of 100 with discount 20 renders
both, on the card and in the detail view. -/
theorem card_and_modal_price_fragments_witness :
    (∃ card, createDealCard (sampleDeal "e1" 100 100 0 4) = Except.ok card ∧
      card.priceOriginal.isSome = false ∧ card.discountBadge.isSome = false) ∧
    ((showDealModal (sampleDeal "e1" 100 100 0 4)).priceOriginal.isSome = false ∧
      (showDealModal (sampleDeal "e1" 100 100 0 4)).discountBadge.isSome = false) ∧
    (∃ card, createDealCard (sampleDeal "e2" 80 100 20 4) = Except.ok card ∧
      card.priceOriginal.isSome = true ∧ card.discountBadge.isSome = true) ∧
    ((showDealModal (sampleDeal "e2" 80 100 20 4)).priceOriginal.isSome = true ∧
      (showDealModal (sampleDeal "e2" 80 100 20 4)).discountBadge.isSome = true) := by
  have h1 := card_and_modal_price_fragments (sampleDeal "e1" 100 100 0 4)
  have h2 := card_and_modal_price_fragments (sampleDeal "e2" 80 100 20 4)
  obtain ⟨c1, hc1⟩ := h1.2.2.2 (by norm_num [sampleDeal])
  obtain ⟨c2, hc2⟩ := h2.2.2.2 (by norm_num [sampleDeal])
  have n1 : ¬ ((sampleDeal "e1" 100 100 0 4).original_price > (sampleDeal "e1" 100 100 0 4).price) := by
    norm_num [sampleDeal]
  have n2 : ¬ ((sampleDeal "e1" 100 100 0 4).discount_pct > 0) := by norm_num [sampleDeal]
  have p1 : (sampleDeal "e2" 80 100 20 4).original_price > (sampleDeal "e2" 80 100 20 4).price := by
    norm_num [sampleDeal]
  have p2 : (sampleDeal "e2" 80 100 20 4).discount_pct > 0 := by norm_num [sampleDeal]
  refine ⟨⟨c1, hc1, ?_, ?_⟩, ⟨?_, ?_⟩, ⟨c2, hc2, ?_, ?_⟩, ⟨?_, ?_⟩⟩
  · exact Bool.eq_false_iff.mpr (fun h => n1 (((h1.1 c1 hc1).1).mp h))
  · exact Bool.eq_false_iff.mpr (fun h => n2 (((h1.1 c1 hc1).2).mp h))
  · exact Bool.eq_false_iff.mpr (fun h => n1 (h1.2.1.mp h))
  · exact Bool.eq_false_iff.mpr (fun h => n2 (h1.2.2.1.mp h))
  · exact ((h2.1 c2 hc2).1).mpr p1
  · exact ((h2.1 c2 hc2).2).mpr p2
  · exact h2.2.1.mpr p1
  · exact h2.2.2.1.mpr p2

/-! ## Theorems on `loadDeals` -/

theorem loadDeals_selects_first_key (s : Store) (data : DealsResponse)
    (first : String) (rest : List String)
    (hsel : isFalsy s.currentCategory = true)
    (hkeys : objectKeys (data.categories.getD []) = first :: rest) :
    (loadDeals s (some data)).currentCategory = some first := by
  simp [loadDeals, hsel, hkeys]

theorem loadDeals_keeps_selection (s : Store) (fetched : Option DealsResponse)
    (hsel : isFalsy s.currentCategory = false) :
    (loadDeals s fetched).currentCategory = s.currentCategory := by
  cases fetched with
  | none => rfl
  | some data => simp [loadDeals, hsel]

/-- C4, amended: on a fetched snapshot with at least one category, when no
category is selected (`currentCategory` is `null`) `loadDeals` selects the
first key of the category index in `Object.keys` order, and when a category
other than the empty string is selected it is left unchanged. -/
theorem loadDeals_default_is_first_key (s : Store) (data : DealsResponse) :
    (∀ first rest, s.currentCategory = none →
      objectKeys (data.categories.getD []) = first :: rest →
      (loadDeals s (some data)).currentCategory = some first) ∧
    (∀ c, s.currentCategory = some c → c ≠ "" →
      (loadDeals s (some data)).currentCategory = some c) := by
  constructor
  · intro first rest hsel hkeys
    exact loadDeals_selects_first_key s data first rest (by rw [hsel]; rfl) hkeys
  · intro c hsel hne
    rw [← hsel]
    exact loadDeals_keeps_selection s (some data) (by rw [hsel]; simpa [isFalsy] using hne)

/-- Witness for C4: the first load of the snapshot that lists `tv` before
`audio` selects `tv`, and a selected `audio` stays selected. -/
theorem loadDeals_default_is_first_key_witness :
    (loadDeals Store.initial (some tvFirstResponse)).currentCategory = some "tv" ∧
    (loadDeals { Store.initial with currentCategory := some "audio" }
      (some tvFirstResponse)).currentCategory = some "audio" :=
  ⟨(loadDeals_default_is_first_key Store.initial tvFirstResponse).1 "tv" ["audio"] rfl rfl,
   (loadDeals_default_is_first_key { Store.initial with currentCategory := some "audio" }
      tvFirstResponse).2 "audio" rfl (by decide)⟩

/-- C4, counterexample: on the first load of a snapshot whose
index lists `tv` before `audio`, `loadDeals` selects `tv`, although `audio` is
the lexicographically first key and the first button of
`renderCategoryButtons`. -/
theorem loadDeals_default_not_lexicographic_first :
    Store.initial.currentCategory = none ∧
    (loadDeals Store.initial (some tvFirstResponse)).currentCategory = some "tv" ∧
    sortStrings (objectKeys (loadDeals Store.initial (some tvFirstResponse)).categories) =
      ["audio", "tv"] ∧
    (renderCategoryButtons (loadDeals Store.initial (some tvFirstResponse))).map
      (fun b => b.category) = ["audio", "tv"] := by
  refine ⟨rfl, rfl, ?_, ?_⟩ <;> decide

/-! ## Facts about the polling loop -/

theorem pollRun_nil (st : Poller × Page) : pollRun st [] = st := rfl

theorem pollRun_cons (st : Poller × Page) (e : PollEvent) (es : List PollEvent) :
    pollRun st (e :: es) = pollRun (pollEvent st e) es := rfl

theorem pollRun_append (st : Poller × Page) (es more : List PollEvent) :
    pollRun st (es ++ more) = pollRun (pollRun st es) more := by
  unfold pollRun
  rw [List.foldl_append]

theorem sequential_append (os more : List PollOutcome) :
    sequential (os ++ more) = sequential os ++ sequential more := by
  induction os with
  | nil => rfl
  | cons o os ih =>
    rw [List.cons_append, sequential, sequential, ih]
    rfl

/-- A closure whose timer is cleared and that has no request in flight takes
no further event. -/
theorem pollRun_settled (p : Poller) (pg : Page) (es : List PollEvent)
    (hact : p.active = false) (hfl : p.inFlight = 0) : pollRun (p, pg) es = (p, pg) := by
  induction es with
  | nil => rfl
  | cons e es ih =>
    have he : pollEvent (p, pg) e = (p, pg) := by
      cases e with
      | fire => simp [pollEvent, hact]
      | answer o => simp [pollEvent, hfl]
    rw [pollRun_cons, he, ih]

/-- A firing of a scheduled timer that is answered before any other event. -/
theorem pollRun_attempt (p : Poller) (pg : Page) (o : PollOutcome) (es : List PollEvent)
    (h : p.active = true) :
    pollRun (p, pg) (PollEvent.fire :: PollEvent.answer o :: es) =
      pollRun (pollCallbackResume (pollCallbackStart p) pg o) es := by
  have h1 : pollEvent (p, pg) PollEvent.fire = (pollCallbackStart p, pg) := by
    simp [pollEvent, h]
  have h2 : pollEvent (pollCallbackStart p, pg) (PollEvent.answer o) =
      pollCallbackResume (pollCallbackStart p) pg o := by
    simp [pollEvent, pollCallbackStart]
  rw [pollRun_cons, h1, pollRun_cons, h2]

theorem attempt_failed (p : Poller) (pg : Page) :
    pollCallbackResume (pollCallbackStart p) pg PollOutcome.failed =
      ({ p with pollCount := p.pollCount + 1 }, pg) := by
  simp [pollCallbackResume, pollCallbackStart]

theorem attempt_stale_below (n f : Nat) (pg : Page) (t : ℚ)
    (ht : 120 ≤ t) (hn : n + 1 < maxPolls) :
    pollCallbackResume (pollCallbackStart { pollCount := n, active := true, inFlight := f })
        pg (PollOutcome.response t) =
      ({ pollCount := n + 1, active := true, inFlight := f },
       { pg with refreshText := waitingText (n + 1) }) := by
  unfold pollCallbackResume pollCallbackStart
  simp only [Nat.add_sub_cancel]
  rw [if_neg (not_lt.mpr ht), if_neg (by simp only [ge_iff_le, not_le]; exact hn)]

theorem attempt_stale_at_max (n f : Nat) (pg : Page) (t : ℚ)
    (ht : 120 ≤ t) (hn : maxPolls ≤ n + 1) :
    pollCallbackResume (pollCallbackStart { pollCount := n, active := true, inFlight := f })
        pg (PollOutcome.response t) =
      ({ pollCount := n + 1, active := false, inFlight := f },
       { pg with loading := false, refreshIcon := "⏱", refreshText := "Still processing...",
                 progressHidden := true, pendingResets := pg.pendingResets + 1 }) := by
  unfold pollCallbackResume pollCallbackStart
  simp only [Nat.add_sub_cancel]
  rw [if_neg (not_lt.mpr ht), if_pos (by simpa using hn)]

theorem pollRun_sequential_stale_below (ts : List ℚ) (hst : ∀ t ∈ ts, 120 ≤ t) :
    ∀ (n : Nat) (pg : Page), n + ts.length < maxPolls →
      pollRun ({ pollCount := n, active := true, inFlight := 0 }, pg)
          (sequential (ts.map PollOutcome.response)) =
        ({ pollCount := n + ts.length, active := true, inFlight := 0 },
         if ts = [] then pg else { pg with refreshText := waitingText (n + ts.length) }) := by
  induction ts with
  | nil => intro n pg _; rfl
  | cons t ts ih =>
    intro n pg hn
    have ht : 120 ≤ t := hst t (List.mem_cons_self _ _)
    have hts : ∀ u ∈ ts, 120 ≤ u := fun u hu => hst u (List.mem_cons_of_mem _ hu)
    simp only [List.length_cons] at hn
    rw [List.map_cons, sequential, pollRun_attempt _ _ _ _ rfl,
      attempt_stale_below n 0 pg t ht (by omega), ih hts (n + 1) _ (by omega)]
    have hl : n + 1 + ts.length = n + (t :: ts).length := by
      simp only [List.length_cons]; omega
    rw [hl]
    by_cases he : ts = []
    · subst he; simp
    · simp [he]

/-- While requests keep failing the timer stays scheduled, for any number of
attempts. -/
theorem pollRun_failed_forever (n : Nat) (p : Poller) (pg : Page) (h : p.active = true) :
    pollRun (p, pg) (sequential (List.replicate n PollOutcome.failed)) =
      ({ p with pollCount := p.pollCount + n }, pg) := by
  induction n generalizing p with
  | zero => rfl
  | succ n ih =>
    rw [List.replicate_succ, sequential, pollRun_attempt _ _ _ _ h, attempt_failed,
      ih { p with pollCount := p.pollCount + 1 } h]
    simp only [Prod.mk.injEq, and_true, Poller.mk.injEq, true_and]
    omega

/-! ## Facts about the controller as a whole -/

theorem set_of_get (l : List Poller) (i : Nat) (p : Poller) (h : l.get? i = some p) :
    l.set i p = l := by
  induction l generalizing i with
  | nil => rfl
  | cons x xs ih =>
    cases i with
    | zero =>
      simp only [List.get?] at h
      cases h
      rfl
    | succ i =>
      simp only [List.get?] at h
      simp only [List.set, ih i h]

theorem get_of_set (l : List Poller) (i : Nat) (p q : Poller) (h : l.get? i = some p) :
    (l.set i q).get? i = some q := by
  induction l generalizing i with
  | nil => cases h
  | cons x xs ih =>
    cases i with
    | zero => rfl
    | succ i =>
      simp only [List.get?] at h
      simp only [List.set, List.get?, ih i h]

theorem countP_active_set (l : List Poller) (i : Nat) (p q : Poller)
    (h : l.get? i = some p) :
    (l.set i q).countP (fun x => x.active) + (if p.active = true then 1 else 0) =
      l.countP (fun x => x.active) + (if q.active = true then 1 else 0) := by
  induction l generalizing i with
  | nil => cases h
  | cons x xs ih =>
    cases i with
    | zero =>
      simp only [List.get?] at h
      cases h
      simp only [List.set, List.countP_cons]
      omega
    | succ i =>
      simp only [List.get?] at h
      have := ih i h
      simp only [List.set, List.countP_cons]
      omega

/-- The events of one closure, fed to the controller, are the run of that
closure on the page. -/
theorem run_pollEvents (i : Nat) (es : List PollEvent) :
    ∀ (c : Controller) (p : Poller), c.pollers.get? i = some p →
      run c (es.map (Event.poll i)) =
        { page := (pollRun (p, c.page) es).2,
          pollers := c.pollers.set i (pollRun (p, c.page) es).1 } := by
  induction es with
  | nil =>
    intro c p h
    simp only [List.map_nil, run, List.foldl, pollRun_nil, set_of_get _ _ _ h]
  | cons e es ih =>
    intro c p h
    have hstep : step c (Event.poll i e) =
        { page := (pollEvent (p, c.page) e).2,
          pollers := c.pollers.set i (pollEvent (p, c.page) e).1 } := by
      simp only [step, h]
    have hrest := ih { page := (pollEvent (p, c.page) e).2,
                       pollers := c.pollers.set i (pollEvent (p, c.page) e).1 }
      (pollEvent (p, c.page) e).1 (get_of_set _ _ _ _ h)
    simp only [List.set_set] at hrest
    rw [pollRun_cons]
    simp only [List.map_cons, run, List.foldl, hstep]
    exact hrest

/-! ## Theorems on the refresh controller -/

set_option maxRecDepth 20000

/-- C5, evaluation at the failing input: a refresh is accepted and starts a
polling timer, a pushed `scraping_error` clears the busy flag and leaves that
timer scheduled, and a second accepted refresh starts another timer, so two
polling timers are scheduled at once. The same happens with a pushed
`scraping_complete`. -/
theorem two_polling_timers_after_push_event :
    activeTimers (run Controller.initial
      [Event.click, Event.statusResult StatusResult.online,
       Event.triggerResult TriggerResult.accepted]) = 1 ∧
    activeTimers (run Controller.initial
      [Event.click, Event.statusResult StatusResult.online,
       Event.triggerResult TriggerResult.accepted, Event.scrapingError,
       Event.click, Event.statusResult StatusResult.online,
       Event.triggerResult TriggerResult.accepted]) = 2 ∧
    activeTimers (run Controller.initial
      [Event.click, Event.statusResult StatusResult.online,
       Event.triggerResult TriggerResult.accepted, Event.scrapingComplete,
       Event.click, Event.statusResult StatusResult.online,
       Event.triggerResult TriggerResult.accepted]) = 2 := by
  decide

/-- C6, evaluation at the failing input: after 36 attempts whose requests all
fail, each answered before the next firing, the timer is still scheduled,
likewise after 35 stale snapshots and one failed request, and 100 failed
attempts run one after the other; the same on the whole controller after an
accepted refresh. -/
theorem polling_timer_outlives_max_polls :
    pollRun (Poller.fresh, Page.polling) (sequential (List.replicate 36 PollOutcome.failed)) =
      ({ pollCount := 36, active := true, inFlight := 0 }, Page.polling) ∧
    (pollRun (Poller.fresh, Page.polling)
      (sequential (List.replicate 35 (PollOutcome.response 300) ++ [PollOutcome.failed]))).1 =
      { pollCount := 36, active := true, inFlight := 0 } ∧
    (pollRun (Poller.fresh, Page.polling)
      (sequential (List.replicate 100 PollOutcome.failed))).1 =
      { pollCount := 100, active := true, inFlight := 0 } ∧
    run Controller.initial
        ([Event.click, Event.statusResult StatusResult.online,
          Event.triggerResult TriggerResult.accepted] ++
         (sequential (List.replicate 36 PollOutcome.failed)).map (Event.poll 0)) =
      { page := Page.polling,
        pollers := [{ pollCount := 36, active := true, inFlight := 0 }] } := by
  decide

/-- C7, counterexample: 34 stale polls are answered in time, then the timer
fires for the 35th and the 36th time before the 35th request is answered. The
answer to the 35th request, a stale snapshot, reads `pollCount = 36` and shows
the timeout; the answer to the 36th, stale as well, shows it again and
schedules a second reset. -/
theorem overlapping_polls_time_out_early_and_twice :
    pollRun (Poller.fresh, Page.polling)
        (sequential (List.replicate 34 (PollOutcome.response 300)) ++
          [PollEvent.fire, PollEvent.fire, PollEvent.answer (PollOutcome.response 300)]) =
      ({ pollCount := 36, active := false, inFlight := 1 },
       { Page.polling with loading := false, refreshIcon := "⏱",
                           refreshText := "Still processing...", progressHidden := true,
                           pendingResets := 1 }) ∧
    pollRun (Poller.fresh, Page.polling)
        (sequential (List.replicate 34 (PollOutcome.response 300)) ++
          [PollEvent.fire, PollEvent.fire, PollEvent.answer (PollOutcome.response 300),
           PollEvent.answer (PollOutcome.response 300)]) =
      ({ pollCount := 36, active := false, inFlight := 0 },
       { Page.polling with loading := false, refreshIcon := "⏱",
                           refreshText := "Still processing...", progressHidden := true,
                           pendingResets := 2 }) := by
  decide

/-- C7, amended: from a new polling loop, when 36 polls in a row each return a
snapshot aged 120 seconds or more and every request is answered before the
timer fires again, every poll from the 1st to the 35th leaves the timer
scheduled and changes nothing on the page but the progress text, the 36th poll
clears the timer and shows the timeout display (busy flag off, bar hidden, one
reset scheduled), and no later event of the loop has any effect. -/
theorem pollRun_sequential_stale_36_times_out (pg : Page) (ts : List ℚ)
    (hlen : ts.length = 36) (hstale : ∀ t ∈ ts, 120 ≤ t) :
    (∀ k, 1 ≤ k → k ≤ 35 →
      pollRun (Poller.fresh, pg) (sequential ((ts.take k).map PollOutcome.response)) =
        ({ pollCount := k, active := true, inFlight := 0 },
         { pg with refreshText := waitingText k })) ∧
    pollRun (Poller.fresh, pg) (sequential (ts.map PollOutcome.response)) =
      ({ pollCount := 36, active := false, inFlight := 0 },
       { pg with loading := false, refreshIcon := "⏱", refreshText := "Still processing...",
                 progressHidden := true, pendingResets := pg.pendingResets + 1 }) ∧
    ∀ more : List PollEvent,
      pollRun (Poller.fresh, pg) (sequential (ts.map PollOutcome.response) ++ more) =
        ({ pollCount := 36, active := false, inFlight := 0 },
         { pg with loading := false, refreshIcon := "⏱", refreshText := "Still processing...",
                   progressHidden := true, pendingResets := pg.pendingResets + 1 }) := by
  have hbelow : ∀ k, k ≤ 35 →
      pollRun (Poller.fresh, pg) (sequential ((ts.take k).map PollOutcome.response)) =
        ({ pollCount := k, active := true, inFlight := 0 },
         if ts.take k = [] then pg else { pg with refreshText := waitingText k }) := by
    intro k hk
    have hl : (ts.take k).length = k := by rw [List.length_take]; omega
    have h := pollRun_sequential_stale_below (ts.take k)
      (fun t ht => hstale t (List.mem_of_mem_take ht)) 0 pg (by rw [hl]; unfold maxPolls; omega)
    rw [hl, Nat.zero_add] at h
    exact h
  have hfull : pollRun (Poller.fresh, pg) (sequential (ts.map PollOutcome.response)) =
      ({ pollCount := 36, active := false, inFlight := 0 },
       { pg with loading := false, refreshIcon := "⏱", refreshText := "Still processing...",
                 progressHidden := true, pendingResets := pg.pendingResets + 1 }) := by
    have hsplit : ts = ts.take 35 ++ ts.drop 35 := (List.take_append_drop 35 ts).symm
    have hdl : (ts.drop 35).length = 1 := by rw [List.length_drop]; omega
    obtain ⟨t, ht⟩ := List.length_eq_one.mp hdl
    have htmem : t ∈ ts := List.mem_of_mem_drop (by rw [ht]; exact List.mem_singleton_self t)
    have hne : ts.take 35 ≠ [] := by
      intro he
      have : (ts.take 35).length = 35 := by rw [List.length_take]; omega
      rw [he] at this
      cases this
    rw [hsplit, List.map_append, sequential_append, pollRun_append, ht, hbelow 35 (le_refl _),
      if_neg hne]
    rw [List.map_cons, List.map_nil, sequential, sequential, pollRun_attempt _ _ _ _ rfl,
      pollRun_nil, attempt_stale_at_max 35 0 _ t (hstale t htmem) (by unfold maxPolls; simp)]
  refine ⟨?_, hfull, ?_⟩
  · intro k h1 hk
    have hne : ts.take k ≠ [] := by
      intro he
      have : (ts.take k).length = k := by rw [List.length_take]; omega
      rw [he] at this
      simp at this
      omega
    rw [hbelow k hk, if_neg hne]
  · intro more
    rw [pollRun_append, hfull]
    exact pollRun_settled _ _ _ rfl rfl

/-- Witness for C7: 36 snapshots aged 300 seconds on the polling page, each
answered before the next firing: still polling after 35 of them, timed out
after the 36th. -/
theorem pollRun_sequential_stale_36_times_out_witness :
    pollRun (Poller.fresh, Page.polling)
        (sequential (((List.replicate 36 (300 : ℚ)).take 35).map PollOutcome.response)) =
      ({ pollCount := 35, active := true, inFlight := 0 },
       { Page.polling with refreshText := "Waiting for updates... (350s)" }) ∧
    pollRun (Poller.fresh, Page.polling)
        (sequential ((List.replicate 36 (300 : ℚ)).map PollOutcome.response)) =
      ({ pollCount := 36, active := false, inFlight := 0 },
       { Page.polling with loading := false, refreshIcon := "⏱",
                           refreshText := "Still processing...", progressHidden := true,
                           pendingResets := 1 }) :=
  have h := pollRun_sequential_stale_36_times_out Page.polling (List.replicate 36 (300 : ℚ))
    (by decide) (by intro t ht; rw [List.eq_of_mem_replicate ht]; norm_num)
  ⟨h.1 35 (by decide) (by decide), h.2.1⟩

/-- C8: a poll attempt whose request fails adds one to the attempt counter, at
its firing, and changes nothing else: its resumption leaves the timer as it was
and the page (busy flag, progress bar, icon, text, scheduled resets) untouched,
also as steps of the whole controller, where the number of scheduled timers
stays the same; the loop goes on with the next event. -/
theorem pollCallback_failed_request (p : Poller) (pg : Page) :
    pollCallbackStart p =
      { pollCount := p.pollCount + 1, active := p.active, inFlight := p.inFlight + 1 } ∧
    pollCallbackResume p pg PollOutcome.failed =
      ({ pollCount := p.pollCount, active := p.active, inFlight := p.inFlight - 1 }, pg) ∧
    pollCallbackResume (pollCallbackStart p) pg PollOutcome.failed =
      ({ pollCount := p.pollCount + 1, active := p.active, inFlight := p.inFlight }, pg) ∧
    (∀ (c : Controller) (i : Nat),
      (step c (Event.poll i PollEvent.fire)).page = c.page ∧
      (step c (Event.poll i (PollEvent.answer PollOutcome.failed))).page = c.page ∧
      activeTimers (step c (Event.poll i (PollEvent.answer PollOutcome.failed))) =
        activeTimers c) ∧
    ∀ es, p.active = true →
      pollRun (p, pg) (PollEvent.fire :: PollEvent.answer PollOutcome.failed :: es) =
        pollRun ({ pollCount := p.pollCount + 1, active := true, inFlight := p.inFlight }, pg)
          es := by
  refine ⟨rfl, rfl, attempt_failed p pg, ?_, ?_⟩
  · intro c i
    cases hg : c.pollers.get? i with
    | none => simp only [step, hg, and_self]
    | some q =>
      have hans : pollEvent (q, c.page) (PollEvent.answer PollOutcome.failed) =
          ({ pollCount := q.pollCount, active := q.active,
             inFlight := if q.inFlight = 0 then q.inFlight else q.inFlight - 1 }, c.page) := by
        simp only [pollEvent]
        split
        · rfl
        · rfl
      refine ⟨?_, ?_, ?_⟩
      · simp only [step, hg, pollEvent]
        split <;> rfl
      · simp only [step, hg, hans]
      · simp only [step, hg, hans, activeTimers]
        have h := countP_active_set c.pollers i q
          { pollCount := q.pollCount, active := q.active,
            inFlight := if q.inFlight = 0 then q.inFlight else q.inFlight - 1 } hg
        simp only at h
        omega
  · intro es h
    rw [pollRun_attempt p pg _ es h, attempt_failed, h]

/-- Witness for C8 (scenario D): the request of attempt 5 fails, the counter
goes to 5 with the page unchanged, and attempt 6 goes on waiting. -/
theorem pollCallback_failed_request_witness :
    pollCallbackResume (pollCallbackStart { pollCount := 4, active := true, inFlight := 0 })
        Page.polling PollOutcome.failed =
      ({ pollCount := 5, active := true, inFlight := 0 }, Page.polling) ∧
    pollRun ({ pollCount := 4, active := true, inFlight := 0 }, Page.polling)
        [PollEvent.fire, PollEvent.answer PollOutcome.failed,
         PollEvent.fire, PollEvent.answer (PollOutcome.response 300)] =
      ({ pollCount := 6, active := true, inFlight := 0 },
       { Page.polling with refreshText := "Waiting for updates... (60s)" }) :=
  have h := pollCallback_failed_request { pollCount := 4, active := true, inFlight := 0 }
    Page.polling
  ⟨h.2.2.1, (h.2.2.2.2 [PollEvent.fire, PollEvent.answer (PollOutcome.response 300)] rfl).trans
    (by decide)⟩

/-- C9: on a page whose busy flag is off, a second `startRefresh` right after
the first changes nothing: the first call sets the busy flag and issues one
status request, the second returns at its guard, so there is one status request
more than before and no trigger request. -/
theorem startRefresh_twice_is_once (pg : Page) (hidle : pg.loading = false) :
    startRefresh (startRefresh pg) = startRefresh pg ∧
    (startRefresh pg).loading = true ∧
    (startRefresh pg).progressHidden = false ∧
    (startRefresh pg).statusRequests = pg.statusRequests + 1 ∧
    (startRefresh pg).awaitingStatus = pg.awaitingStatus + 1 ∧
    (startRefresh pg).triggerRequests = pg.triggerRequests ∧
    (startRefresh pg).awaitingTrigger = pg.awaitingTrigger ∧
    ∀ c : Controller, c.page = pg →
      run c [Event.click, Event.click] = run c [Event.click] := by
  have h1 : startRefresh pg =
      { pg with loading := true, refreshIcon := "⏳",
                refreshText := "Triggering local scraper...", progressHidden := false,
                statusRequests := pg.statusRequests + 1,
                awaitingStatus := pg.awaitingStatus + 1 } := by
    unfold startRefresh
    rw [hidle]
    rfl
  have h2 : startRefresh (startRefresh pg) = startRefresh pg := by
    rw [h1]
    rfl
  refine ⟨h2, ?_, ?_, ?_, ?_, ?_, ?_, ?_⟩
  · rw [h1]
  · rw [h1]
  · rw [h1]
  · rw [h1]
  · rw [h1]
  · rw [h1]
  · intro c hc
    subst hc
    simp only [run, List.foldl, step]
    rw [h2]

/-- Witness for C9 on the idle page. -/
theorem startRefresh_twice_is_once_witness :
    startRefresh (startRefresh Page.idle) = startRefresh Page.idle ∧
    (startRefresh Page.idle).statusRequests = 1 ∧
    (startRefresh Page.idle).triggerRequests = 0 ∧
    run Controller.initial [Event.click, Event.click] = run Controller.initial [Event.click] :=
  have h := startRefresh_twice_is_once Page.idle rfl
  ⟨h.1, h.2.2.2.1, h.2.2.2.2.2.1, h.2.2.2.2.2.2.2 Controller.initial rfl⟩

end BlackFriday
